import Mathlib

/-!
Shallow embedding of `lutris/runners/winesteam.py` (the winesteam runner of
lutris): path resolution helpers, the Steam shutdown helpers, the prelaunch
shutdown escalation, the launch-command builder and the install/installed
checks, together with theorems settling the specification claims.

External collaborators (the OS process table, the filesystem, the wine base
runner, the GUI dialogs, the `lutris.util.steam` manifest/config readers) are
embedded as explicit function parameters: a probe is a function from probe
index to Bool, filesystem existence is a function `String → Bool`, lookups are
functions `String → Option String`.  Python falsiness of `None`/`""` is
modelled on `Option String` by `optTruthy`; a Python exception is modelled as
an error constructor of the result type.
-/

namespace Winesteam

/-- `charListLeads p l` is true iff `p` is an initial segment of `l`. -/
def charListLeads : List Char → List Char → Bool
  | [], _ => true
  | _ :: _, [] => false
  | a :: as, b :: bs => a = b && charListLeads as bs

/-- Python `s.startswith(pat)` on the underlying character lists. -/
def strStartsWith (s pat : String) : Bool :=
  charListLeads pat.data s.data

/-- Python `s.endswith(pat)` on the underlying character lists. -/
def strEndsWith (s pat : String) : Bool :=
  charListLeads pat.data.reverse s.data.reverse

/-- Embedding of `os.path.join(a, b)` (posixpath, two arguments): an absolute
second component replaces the first, otherwise the components are joined with
a single separator. -/
def osPathJoin (a b : String) : String :=
  if strStartsWith b "/" then b
  else if a = "" then b
  else if strEndsWith a "/" then a ++ b
  else a ++ "/" ++ b

/-- Everything of the path up to and including the last slash, with trailing
slashes stripped unless the head is all slashes — `posixpath.dirname` on a
list of characters. -/
def dirnameList (l : List Char) : List Char :=
  let rev := l.reverse
  let headRev := rev.dropWhile (fun c => c ≠ '/')
  match headRev with
  | [] => []
  | _ =>
    if headRev.all (fun c => c = '/') then headRev.reverse
    else (headRev.dropWhile (fun c => c = '/')).reverse

/-- Embedding of `os.path.dirname`. -/
def osPathDirname (p : String) : String :=
  ⟨dirnameList p.data⟩

/-- Python truthiness of an optional string: `None` and `""` are falsy. -/
def optTruthy : Option String → Bool
  | none => false
  | some s => !s.isEmpty

/-- Embedding of module-level `shutdown()`.  `system.get_pid` is the
`getPid` parameter; modelled from the spec: `system.get_cwd` and
`system.get_command_line` (`lutris.util.system`, not among the sources) read
a pid's working directory and command line and "fail gracefully (return
nothing) if the pid has since exited", so they are the parameters `getCwd`
and `getCmdline` returning `Option String`.  The code then calls
`os.path.join(cwd, cmdline)` unconditionally; applied to Python `None` this
raises a `TypeError`, modelled as `Except.error`.  Result `Except.ok none`
is the early `return False`; `Except.ok (some cmd)` is the command passed to
`system.execute`. -/
def shutdown (getPid : Option Nat) (getCwd getCmdline : Nat → Option String) :
    Except String (Option (List String)) :=
  match getPid with
  | none => Except.ok none
  | some pid =>
    match getCwd pid, getCmdline pid with
    | some cwd, some cmdline =>
      Except.ok (some ["wine", osPathJoin cwd cmdline, "-shutdown"])
    | _, _ =>
      Except.error "TypeError: join() argument must be str, not NoneType"

/-- Observable effects of one run of `winesteam.prelaunch`: how many times the
process table was probed, how many graceful shutdown requests were issued, the
sleep durations in order, and how many kills were issued. -/
structure SteamProcState where
  probes : Nat
  shutdownRequests : Nat
  sleeps : List Nat
  kills : Nat
deriving DecidableEq, Repr

/-- `steam.is_running()`: one probe of the process table.  The oracle `probe`
gives the result of the i-th probe; the state records that a probe happened. -/
def steamIsRunning (probe : Nat → Bool) (s : SteamProcState) :
    Bool × SteamProcState :=
  (probe s.probes, { s with probes := s.probes + 1 })

/-- `steam.shutdown()` as used by `prelaunch`: a fire-and-forget graceful
shutdown request, recorded in the state. -/
def steamShutdownReq (s : SteamProcState) : SteamProcState :=
  { s with shutdownRequests := s.shutdownRequests + 1 }

/-- `time.sleep(n)`: recorded in the state. -/
def steamSleep (n : Nat) (s : SteamProcState) : SteamProcState :=
  { s with sleeps := s.sleeps ++ [n] }

/-- `steam.kill()`: an unconditional kill, recorded in the state. -/
def steamKill (s : SteamProcState) : SteamProcState :=
  { s with kills := s.kills + 1 }

/-- Embedding of `winesteam.prelaunch`: probe; if running, request graceful
shutdown, sleep 2, re-probe; if still running, kill, sleep 2, re-probe; if
still running return `False`, in every other case return `True`. -/
def prelaunch (probe : Nat → Bool) : Bool × SteamProcState :=
  let s0 : SteamProcState := ⟨0, 0, [], 0⟩
  let r0 := steamIsRunning probe s0
  if r0.1 then
    let s1 := steamSleep 2 (steamShutdownReq r0.2)
    let r1 := steamIsRunning probe s1
    if r1.1 then
      let s2 := steamSleep 2 (steamKill r1.2)
      let r2 := steamIsRunning probe s2
      if r2.1 then (false, r2.2) else (true, r2.2)
    else (true, r1.2)
  else (true, r0.2)

/-- Result of `winesteam.get_game_data_path`: the returned path, whether the
Steam configuration file was consulted, and whether the "Data path for
SteamApp %s not found" warning was emitted. -/
structure DataPathResult where
  dataPath : Option String
  configConsulted : Bool
  warned : Bool
deriving DecidableEq, Repr

/-- Embedding of `winesteam.get_game_data_path`.  Modelled from the spec:
`get_path_from_appmanifest` and `get_path_from_config`/`read_config`
(`lutris.util.steam`, not among the sources) are the install-manifest and
configuration-file lookups, each an optional-path lookup by appid, so they
are the parameters `manifestLookup` and `configLookup`.  The code consults
the manifest first and reads the configuration file only when the manifest
yielded a falsy value; when both are falsy it logs a warning and returns the
falsy value. -/
def get_game_data_path (manifestLookup configLookup : String → Option String)
    (appid : String) : DataPathResult :=
  let d1 := manifestLookup appid
  if optTruthy d1 then ⟨d1, false, false⟩
  else
    let d2 := configLookup appid
    if optTruthy d2 then ⟨d2, true, false⟩
    else ⟨d2, true, true⟩

/-- Embedding of `winesteam.get_steamapps_path`: starting from the Steam
executable's path, try the two candidate subdirectories in order and return
the first that exists; raise `IOError("Unable to locate SteamApps path")`
(modelled as `Except.error`) when neither exists. -/
def get_steamapps_path (ex : String → Bool) (steamExePath : String) :
    Except String String :=
  let dir := osPathDirname steamExePath
  let c1 := osPathJoin dir "SteamApps/common"
  if ex c1 then Except.ok c1
  else
    let c2 := osPathJoin dir "steamapps/common"
    if ex c2 then Except.ok c2
    else Except.error "Unable to locate SteamApps path"

/-- Embedding of the `winesteam.steam_path` property: the configured
`steam_path` runner option is returned when it is truthy and exists on disk,
otherwise `Steam.exe` inside the default Steam directory.  `os.path.exists`
is the parameter `ex`; `get_default_steam_dir()` is the parameter
`defaultSteamDir`. -/
def steam_path (configSteamPath : Option String) (ex : String → Bool)
    (defaultSteamDir : String) : String :=
  match configSteamPath with
  | some path =>
    if !path.isEmpty && ex path then path
    else osPathJoin defaultSteamDir "Steam.exe"
  | none => osPathJoin defaultSteamDir "Steam.exe"

/-- Embedding of `winesteam.get_default_steam_dir` with no prefix argument:
`~/.wine/drive_c/Program Files/Steam` with `~` expanded to `home`. -/
def get_default_steam_dir (home : String) : String :=
  osPathJoin (osPathJoin home ".wine") "drive_c/Program Files/Steam"

/-- Embedding of `winesteam.is_installed`: false when `check_depends()` (the
wine base runner's dependency check, the parameter `checkDepends`) fails or
the `steam_path` property is falsy, otherwise `os.path.exists(steam_path)`.
`sp` is the value of the `steam_path` property. -/
def is_installed (checkDepends : Bool) (sp : String) (ex : String → Bool) :
    Bool :=
  if !checkDepends || sp.isEmpty then false
  else ex sp

/-- The game options read by `play`: `appid`, `args` and `prefix`, each
possibly absent. -/
structure GameConfig where
  appid : Option String
  args : Option String
  pfx : Option String
deriving DecidableEq, Repr

/-- Python `x or ''` on an optional string. -/
def orEmpty : Option String → String
  | none => ""
  | some s => s

/-- Structured result of `winesteam.play`: either the
`{error: ..., runner: ...}` dictionary or the `{command: ...}` dictionary. -/
inductive PlayResult where
  | err (errorCode : String) (runnerName : String)
  | command (cmd : List String)
deriving DecidableEq, Repr

/-- `true` on the error form of a `play` result. -/
def PlayResult.isError : PlayResult → Bool
  | .err _ _ => true
  | .command _ => false

/-- Embedding of the `winesteam.launch_args` property: the quoted wine
executable (`get_executable()`, parameter `wineExe`), the quoted `steam_path`
property and the fixed `-no-dwrite` flag. -/
def launch_args (wineExe steamExe : String) : List String :=
  ["\"" ++ wineExe ++ "\"", "\"" ++ steamExe ++ "\"", "-no-dwrite"]

/-- The head of the `play` command: `WINEDEBUG=fixme-all` and, when a prefix
is configured, the `WINEPREFIX="..." ` assignment (trailing space as in the
source). -/
def playHead (pfx : String) : List String :=
  "WINEDEBUG=fixme-all" ::
    (if !pfx.isEmpty then ["WINEPREFIX=\"" ++ pfx ++ "\" "] else [])

/-- Embedding of `winesteam.play`: the `RUNNER_NOT_INSTALLED` error form when
`check_depends()` fails (with the wine dependency name, parameter `depends`)
or when `is_installed()` is false (with the class name `winesteam`);
otherwise the command list: the `WINEDEBUG` head, the optional `WINEPREFIX`
assignment, `launch_args`, then `-applaunch <appid>` when an appid is
configured and the free-form args string when configured. -/
def play (checkDepends : Bool) (depends : String)
    (configSteamPath : Option String) (ex : String → Bool)
    (defaultSteamDir : String) (wineExe : String) (cfg : GameConfig) :
    PlayResult :=
  if !checkDepends then .err "RUNNER_NOT_INSTALLED" depends
  else if !is_installed checkDepends
      (steam_path configSteamPath ex defaultSteamDir) ex then
    .err "RUNNER_NOT_INSTALLED" "winesteam"
  else
    let appid := orEmpty cfg.appid
    let args := orEmpty cfg.args
    let pfx := orEmpty cfg.pfx
    let command := playHead pfx
      ++ launch_args wineExe (steam_path configSteamPath ex defaultSteamDir)
      ++ (if !appid.isEmpty then ["-applaunch", appid] else [])
      ++ (if !args.isEmpty then [args] else [])
    .command command

/-- Outcome of `winesteam.install`: the executable path persisted to the
configuration store, or the error dialog shown with nothing persisted, or a
raised Python exception. -/
inductive InstallResult where
  | persisted (steamPath : String)
  | errorDialog (msg : String)
  | raised (msg : String)
deriving DecidableEq, Repr

/-- The directory `install` derives: the default Steam directory when an
installer payload was supplied (after running it), otherwise the folder of
the directory dialog.  Modelled from the spec: `DirectoryDialog`
(`lutris.gui.dialogs`, not among the sources) is the directory-prompt
collaborator `promptForDirectory() -> optional path`, parameter
`promptFolder`. -/
def installSteamDir (installerPath promptFolder : Option String)
    (defaultSteamDir : String) : Option String :=
  match installerPath with
  | some _ => some defaultSteamDir
  | none => promptFolder

/-- Embedding of `winesteam.install`: join the derived directory with
`Steam.exe`; persist that path to the configuration store when it exists on
disk, otherwise show the error dialog and persist nothing.  When no
directory was derived (dialog cancelled), `os.path.join(None, "Steam.exe")`
raises a `TypeError`. -/
def install (installerPath promptFolder : Option String) (ex : String → Bool)
    (defaultSteamDir : String) : InstallResult :=
  match installSteamDir installerPath promptFolder defaultSteamDir with
  | none => .raised "TypeError: join() argument must be str, not NoneType"
  | some d =>
    let sp := osPathJoin d "Steam.exe"
    if ex sp then .persisted sp
    else .errorDialog "Can\x27t find Steam.exe in the selected folder"

/-- Appending `"Steam.exe"` to any string yields a non-empty string. -/
theorem append_steam_exe_ne_empty (a : String) : a ++ "Steam.exe" ≠ "" := by
  intro h
  have hl := congrArg String.length h
  rw [String.length_append] at hl
  simp at hl
  exact absurd hl.2 (by decide)

/-- A non-empty string has `isEmpty = false`. -/
theorem ne_empty_isEmpty_false (s : String) (h : s ≠ "") :
    s.isEmpty = false := by
  rw [Bool.eq_false_iff]
  intro hb
  exact h ((String.isEmpty_iff s).mp hb)

/-- `osPathJoin a "Steam.exe"` is never the empty string. -/
theorem osPathJoin_steam_exe_ne_empty (a : String) :
    (osPathJoin a "Steam.exe").isEmpty = false := by
  unfold osPathJoin
  split
  · decide
  · split
    · decide
    · split
      · exact ne_empty_isEmpty_false _ (append_steam_exe_ne_empty a)
      · exact ne_empty_isEmpty_false _ (append_steam_exe_ne_empty (a ++ "/"))

/-- The `steam_path` property is never the empty string: either the existing
configured path (checked non-empty) or the default join ending in
`Steam.exe`. -/
theorem steam_path_isEmpty_false (configSteamPath : Option String)
    (ex : String → Bool) (defaultSteamDir : String) :
    (steam_path configSteamPath ex defaultSteamDir).isEmpty = false := by
  unfold steam_path
  match configSteamPath with
  | none => exact osPathJoin_steam_exe_ne_empty defaultSteamDir
  | some path =>
    by_cases h : (!path.isEmpty && ex path) = true
    · simp only [h, if_true]
      have := (Bool.and_eq_true _ _).mp h
      simpa using this.1
    · simp only [Bool.not_eq_true] at h
      simp only [h, if_false]
      exact osPathJoin_steam_exe_ne_empty defaultSteamDir

/-- C1: `get_game_data_path` consults the install manifest first and returns
its value without consulting the Steam configuration file when the manifest
yields a (truthy) path, even if the configuration holds a conflicting entry;
when the manifest yields nothing, it returns the configuration file's
value. -/
theorem get_game_data_path_resolution_order
    (manifestLookup configLookup : String → Option String)
    (appid p q : String) :
    (manifestLookup appid = some p → p.isEmpty = false →
      get_game_data_path manifestLookup configLookup appid =
        ⟨some p, false, false⟩)
    ∧ (optTruthy (manifestLookup appid) = false →
        configLookup appid = some q → q.isEmpty = false →
        (get_game_data_path manifestLookup configLookup appid).dataPath =
          some q) := by
  constructor
  · intro hm hp
    simp [get_game_data_path, optTruthy, hm, hp]
  · intro hm hc hq
    simp only [get_game_data_path, hm, hc]
    simp [optTruthy, hq]

/-- C1 witness: with a manifest entry for appid 440 conflicting with the
configuration, the manifest's path is returned and the configuration is not
consulted; for appid 570, absent from the manifest, the configuration's path
is returned. -/
theorem get_game_data_path_resolution_order_witness :
    get_game_data_path
        (fun a => if a = "440" then some "/manifest/440" else none)
        (fun a => if a = "440" then some "/config/440" else some "/config/570")
        "440" = ⟨some "/manifest/440", false, false⟩
    ∧ (get_game_data_path
        (fun a => if a = "440" then some "/manifest/440" else none)
        (fun a => if a = "440" then some "/config/440" else some "/config/570")
        "570").dataPath = some "/config/570" := by
  refine ⟨?_, ?_⟩
  · exact (get_game_data_path_resolution_order
      (fun a => if a = "440" then some "/manifest/440" else none)
      (fun a => if a = "440" then some "/config/440" else some "/config/570")
      "440" "/manifest/440" "x").1 rfl rfl
  · exact (get_game_data_path_resolution_order
      (fun a => if a = "440" then some "/manifest/440" else none)
      (fun a => if a = "440" then some "/config/440" else some "/config/570")
      "570" "x" "/config/570").2 rfl rfl rfl

/-- C2: on a target that never exits, `prelaunch` returns `False` after
exactly three probes, one graceful shutdown request, two grace-period sleeps
of 2 time units each and one kill. -/
theorem prelaunch_never_exits_fails (probe : Nat → Bool)
    (h : ∀ i, probe i = true) :
    prelaunch probe = (false, ⟨3, 1, [2, 2], 1⟩) := by
  simp [prelaunch, steamIsRunning, steamShutdownReq, steamSleep, steamKill, h]

/-- C2 witness: concrete always-running probe. -/
theorem prelaunch_never_exits_fails_witness :
    prelaunch (fun _ => true) = (false, ⟨3, 1, [2, 2], 1⟩) :=
  prelaunch_never_exits_fails (fun _ => true) (fun _ => rfl)

/-- C3 (failing input): when the pid lookup succeeds but the process has
exited before the working-directory and command-line reads (both returning
nothing, as the spec requires of those reads), `shutdown` raises a
`TypeError` from `os.path.join(None, None)` instead of completing
normally. -/
theorem shutdown_raises_when_process_gone :
    shutdown (some 1) (fun _ => none) (fun _ => none) =
      Except.error "TypeError: join() argument must be str, not NoneType" :=
  rfl

/-- C5: on a target not running at the initial probe, `prelaunch` returns
`True` immediately: one probe, no shutdown request, no sleep, no kill. -/
theorem prelaunch_not_running_stops_immediately (probe : Nat → Bool)
    (h : probe 0 = false) :
    prelaunch probe = (true, ⟨1, 0, [], 0⟩) := by
  simp [prelaunch, steamIsRunning, h]

/-- C5 witness: concrete never-running probe. -/
theorem prelaunch_not_running_stops_immediately_witness :
    prelaunch (fun _ => false) = (true, ⟨1, 0, [], 0⟩) :=
  prelaunch_not_running_stops_immediately (fun _ => false) rfl

/-- C6: on a target running at the initial probe but gone by the re-probe
after the first grace period, `prelaunch` returns `True` with exactly one
2-unit sleep and no kill. -/
theorem prelaunch_exits_in_grace_no_kill (probe : Nat → Bool)
    (h0 : probe 0 = true) (h1 : probe 1 = false) :
    prelaunch probe = (true, ⟨2, 1, [2], 0⟩) := by
  simp [prelaunch, steamIsRunning, steamShutdownReq, steamSleep, h0, h1]

/-- C6 witness: concrete probe running only at index 0. -/
theorem prelaunch_exits_in_grace_no_kill_witness :
    prelaunch (fun i => i == 0) = (true, ⟨2, 1, [2], 0⟩) :=
  prelaunch_exits_in_grace_no_kill (fun i => i == 0) rfl rfl

/-- C4 counterexample: with a filesystem on which neither candidate
subdirectory exists, `get_steamapps_path` raises
`IOError("Unable to locate SteamApps path")` — it does not yield an empty
result. -/
theorem get_steamapps_path_counterexample :
    get_steamapps_path (fun _ => false) "/steam/Steam.exe" =
      Except.error "Unable to locate SteamApps path"
    ∧ (get_steamapps_path (fun _ => false) "/steam/Steam.exe").isOk = false :=
  ⟨rfl, rfl⟩

/-- C4 amended: the lookup helpers generally swallow failures into optional
results, but `get_steamapps_path` raises an
`IOError("Unable to locate SteamApps path")` when neither of the two fixed
candidate subdirectories exists on disk. -/
theorem get_steamapps_path_neither_candidate_raises (ex : String → Bool)
    (steamExePath : String)
    (h1 : ex (osPathJoin (osPathDirname steamExePath) "SteamApps/common") =
      false)
    (h2 : ex (osPathJoin (osPathDirname steamExePath) "steamapps/common") =
      false) :
    get_steamapps_path ex steamExePath =
      Except.error "Unable to locate SteamApps path" := by
  simp [get_steamapps_path, h1, h2]

/-- C4 amended witness: concrete empty filesystem. -/
theorem get_steamapps_path_neither_candidate_raises_witness :
    get_steamapps_path (fun _ => false) "/wine/Steam/Steam.exe" =
      Except.error "Unable to locate SteamApps path" :=
  get_steamapps_path_neither_candidate_raises (fun _ => false)
    "/wine/Steam/Steam.exe" rfl rfl

/-- C7: in normal launch mode (dependency check passing, runner installed)
with appid `440` and args `-windowed`, the `play` command ends in
`-applaunch 440 -windowed`, immediately preceded by the quoted wine
executable, the quoted Steam executable path and the fixed `-no-dwrite`
flag. -/
theorem play_applaunch_tail (depends : String)
    (configSteamPath : Option String) (ex : String → Bool)
    (defaultSteamDir wineExe : String) (cfg : GameConfig)
    (hi : is_installed true (steam_path configSteamPath ex defaultSteamDir)
      ex = true)
    (ha : cfg.appid = some "440") (hargs : cfg.args = some "-windowed") :
    play true depends configSteamPath ex defaultSteamDir wineExe cfg =
      .command (playHead (orEmpty cfg.pfx) ++
        ["\"" ++ wineExe ++ "\"",
         "\"" ++ steam_path configSteamPath ex defaultSteamDir ++ "\"",
         "-no-dwrite", "-applaunch", "440", "-windowed"]) := by
  simp [play, hi, ha, hargs, launch_args, orEmpty]
  decide

/-- C7 witness: concrete configuration with appid 440 and args
`-windowed`. -/
theorem play_applaunch_tail_witness :
    play true "wine" (some "/steam/Steam.exe")
        (fun s => s == "/steam/Steam.exe") "/default" "/usr/bin/wine"
        ⟨some "440", some "-windowed", none⟩ =
      .command ["WINEDEBUG=fixme-all", "\"/usr/bin/wine\"",
        "\"/steam/Steam.exe\"", "-no-dwrite", "-applaunch", "440",
        "-windowed"] :=
  play_applaunch_tail "wine" (some "/steam/Steam.exe")
    (fun s => s == "/steam/Steam.exe") "/default" "/usr/bin/wine"
    ⟨some "440", some "-windowed", none⟩ rfl rfl rfl

/-- C8: `is_installed` is false whenever the resolved (configured or
default) executable path does not exist on disk, for any configuration
content; and it is true iff the dependency check passes and that path
exists. -/
theorem is_installed_exists_iff (checkDepends : Bool)
    (configSteamPath : Option String) (ex : String → Bool)
    (defaultSteamDir : String) :
    (ex (steam_path configSteamPath ex defaultSteamDir) = false →
      is_installed checkDepends (steam_path configSteamPath ex defaultSteamDir)
        ex = false)
    ∧ (is_installed checkDepends
        (steam_path configSteamPath ex defaultSteamDir) ex = true ↔
      checkDepends = true ∧
        ex (steam_path configSteamPath ex defaultSteamDir) = true) := by
  have hne := steam_path_isEmpty_false configSteamPath ex defaultSteamDir
  unfold is_installed
  rw [hne]
  cases checkDepends <;> simp

/-- C8 witness: with a configured path and a filesystem on which nothing
exists, `is_installed` is false. -/
theorem is_installed_exists_iff_witness :
    is_installed true
      (steam_path (some "/custom/Steam.exe") (fun _ => false) "/default")
      (fun _ => false) = false :=
  (is_installed_exists_iff true (some "/custom/Steam.exe") (fun _ => false)
    "/default").1 rfl

/-- C9: `play` is a total function into a structured result (it cannot
raise), and the result is the error form exactly when the dependency check
fails or the runner is not installed; otherwise it is the command form. -/
theorem play_error_exactly_on_failures (checkDepends : Bool)
    (depends : String) (configSteamPath : Option String) (ex : String → Bool)
    (defaultSteamDir wineExe : String) (cfg : GameConfig) :
    (play checkDepends depends configSteamPath ex defaultSteamDir wineExe
        cfg).isError = true ↔
      (checkDepends = false ∨
        is_installed checkDepends
          (steam_path configSteamPath ex defaultSteamDir) ex = false) := by
  cases checkDepends with
  | false => simp [play, PlayResult.isError]
  | true =>
    cases h : is_installed true (steam_path configSteamPath ex defaultSteamDir)
        ex with
    | false => simp [play, h, PlayResult.isError]
    | true => simp [play, h, PlayResult.isError]

/-- C9 witness: with the dependency check failing, the result is the error
form. -/
theorem play_error_exactly_on_failures_witness :
    (play false "wine" none (fun _ => false) "/d" "/usr/bin/wine"
        ⟨none, none, none⟩).isError = true :=
  (play_error_exactly_on_failures false "wine" none (fun _ => false) "/d"
    "/usr/bin/wine" ⟨none, none, none⟩).mpr (Or.inl rfl)

/-- C10: when `install` has derived a directory, it persists the joined
`Steam.exe` path iff that path exists on disk; when it does not exist, the
error dialog is shown and nothing is persisted. -/
theorem install_persists_iff (installerPath promptFolder : Option String)
    (ex : String → Bool) (defaultSteamDir d : String)
    (hd : installSteamDir installerPath promptFolder defaultSteamDir =
      some d) :
    (install installerPath promptFolder ex defaultSteamDir =
        .persisted (osPathJoin d "Steam.exe") ↔
      ex (osPathJoin d "Steam.exe") = true)
    ∧ (ex (osPathJoin d "Steam.exe") = false →
        install installerPath promptFolder ex defaultSteamDir =
          .errorDialog "Can\x27t find Steam.exe in the selected folder") := by
  unfold install
  rw [hd]
  constructor
  · cases h : ex (osPathJoin d "Steam.exe") <;> simp [h]
  · intro h
    simp [h]

/-- C10 witness: with an installer payload and the default directory holding
`Steam.exe`, the path is persisted. -/
theorem install_persists_iff_witness :
    install (some "/tmp/SteamInstall.msi") none
        (fun s => s == "/wine/drive_c/Program Files/Steam/Steam.exe")
        "/wine/drive_c/Program Files/Steam" =
      .persisted "/wine/drive_c/Program Files/Steam/Steam.exe" :=
  (install_persists_iff (some "/tmp/SteamInstall.msi") none
    (fun s => s == "/wine/drive_c/Program Files/Steam/Steam.exe")
    "/wine/drive_c/Program Files/Steam"
    "/wine/drive_c/Program Files/Steam" rfl).1.mpr (by decide)

end Winesteam
